import Mathlib

/-!
Verification development for the `clock` repository.

Part A embeds the DCF77 radio time-code decoder of `src/main.py`:
the per-second bit classifier inside `computeTime` (its sliding-window
threshold rule) and the frame validation / BCD field extraction that runs
once 59 bits have been collected.

Part B embeds the stepper-clock synchronization controller of
`src/webtime.py`: `pulsessince12`, `pulsetoclock`, `calcoffset`, the body
of one `clock_loop` iteration, and the pulse loop of the `/sync` handler.

Machine arithmetic notes: the Python threshold expressions
`1000/samplespeed * noisethreshms/1000` and
`1000/samplespeed * zerothreshms/1000` evaluate in IEEE floats to exactly
8.0 and 36.0 (every intermediate is exactly representable), and the window
size `floor(1000/samplespeed * .35)` is exactly 70, so natural-number
division reproduces them exactly.  Integer sums and differences never
overflow in Python, so Nat/Int model them directly.
-/

namespace Clock

/-! ### Part A: `src/main.py` — bit classifier (lines 69-95) -/

/-- `samplespeed = 5` — ms between samples. -/
def samplespeed : Nat := 5

/-- `noisethreshms = 40`. -/
def noisethreshms : Nat := 40

/-- `zerothreshms = 180`. -/
def zerothreshms : Nat := 180

/-- `samples = floor(1000/samplespeed * .35)` = 70 (exact in float). -/
def samples : Nat := 1000 / samplespeed * 35 / 100

/-- One execution of the classification conditional of `computeTime`
(lines 84-95) on the current sliding window `a`:
`if a[0]==0 and a[1]==1 and sum(a[0:10]) > 7` detects a cell boundary;
then `sum(a) > 1000/samplespeed * noisethreshms/1000` (= 8.0 exactly)
rejects noise, and `sum(a) <= 1000/samplespeed * zerothreshms/1000`
(= 36.0 exactly) selects bit 0, otherwise bit 1.  Returns the appended
bit, or `none` when no bit is emitted. -/
def classifyCell (a : List Nat) : Option Nat :=
  if a.getD 0 0 = 0 ∧ a.getD 1 0 = 1 ∧ 7 < (a.take 10).sum then
    if 1000 / samplespeed * noisethreshms / 1000 < a.sum then
      if a.sum ≤ 1000 / samplespeed * zerothreshms / 1000 then some 0
      else some 1
    else none
  else none

/-- Effect of the same conditional on the accumulator: on an emitted bit
`timeInfo.append(bit)` and `bitNum += 1`; otherwise both unchanged. -/
def classifyAppend (a : List Nat) (timeInfo : List Nat) (bitNum : Nat) :
    List Nat × Nat :=
  match classifyCell a with
  | some bit => (timeInfo ++ [bit], bitNum + 1)
  | none => (timeInfo, bitNum)

/-! ### Part A: `src/main.py` — frame validation and decode (lines 96-125) -/

/-- `weekday(i)` from `src/main.py` lines 40-50. -/
def weekday (i : Nat) : String :=
  match i with
  | 1 => "Monday"
  | 2 => "Tuesday"
  | 3 => "Wednesday"
  | 4 => "Thursday"
  | 5 => "Friday"
  | 6 => "Saturday"
  | 7 => "Sunday"
  | _ => "Invalid day of week"

/-- The decoded fields assembled by `computeTime` on success: `minute`,
`stunde`, `tag`, `wochentag`, `monat`, `jahr` and the season flag
(`true` for CEST via bit 17, `false` for CET via bit 18). -/
structure DecodedTime where
  minute : Nat
  stunde : Nat
  tag : Nat
  wochentag : Nat
  monat : Nat
  jahr : Nat
  cest : Bool
  deriving DecidableEq, Repr

/-- The `bitNum == 59` block of `computeTime` (lines 96-125), applied to the
59 collected bits `timeInfo[0..58]`.  Mirrors the source exactly:
marker check `timeInfo[0] != 0 or timeInfo[20] != 1`; the three even-parity
checks over `timeInfo[21:29]`, `timeInfo[29:36]`, `timeInfo[36:59]`;
the BCD-weighted field sums; and the season resolution on bits 17/18
(neither set returns the failure string, modelled as `none`).
Any list that is not a complete 59-bit frame also maps to `none`. -/
def decodeFrame (timeInfo : List Nat) : Option DecodedTime :=
  match timeInfo with
  | b0 :: _ :: _ :: _ :: _ :: _ :: _ :: _ :: _ :: _ ::
    _ :: _ :: _ :: _ :: _ :: _ :: _ :: b17 :: b18 :: _ ::
    b20 :: b21 :: b22 :: b23 :: b24 :: b25 :: b26 :: b27 :: b28 :: b29 ::
    b30 :: b31 :: b32 :: b33 :: b34 :: b35 :: b36 :: b37 :: b38 :: b39 ::
    b40 :: b41 :: b42 :: b43 :: b44 :: b45 :: b46 :: b47 :: b48 :: b49 ::
    b50 :: b51 :: b52 :: b53 :: b54 :: b55 :: b56 :: b57 :: b58 :: [] =>
    if b0 ≠ 0 ∨ b20 ≠ 1 then none
    else if (b21 + b22 + b23 + b24 + b25 + b26 + b27 + b28) % 2 = 1 ∨
            (b29 + b30 + b31 + b32 + b33 + b34 + b35) % 2 = 1 ∨
            (b36 + b37 + b38 + b39 + b40 + b41 + b42 + b43 + b44 + b45 +
             b46 + b47 + b48 + b49 + b50 + b51 + b52 + b53 + b54 + b55 +
             b56 + b57 + b58) % 2 = 1 then none
    else
      let minute := b21 + 2 * b22 + 4 * b23 + 8 * b24 + 10 * b25 +
        20 * b26 + 40 * b27
      let stunde := b29 + 2 * b30 + 4 * b31 + 8 * b32 + 10 * b33 + 20 * b34
      let tag := b36 + 2 * b37 + 4 * b38 + 8 * b39 + 10 * b40 + 20 * b41
      let wochentag := b42 + 2 * b43 + 4 * b44
      let monat := b45 + 2 * b46 + 4 * b47 + 8 * b48 + 10 * b49
      let jahr := b50 + 2 * b51 + 4 * b52 + 8 * b53 + 10 * b54 + 20 * b55 +
        40 * b56 + 80 * b57
      if b17 = 1 then some ⟨minute, stunde, tag, wochentag, monat, jahr, true⟩
      else if b18 = 1 then
        some ⟨minute, stunde, tag, wochentag, monat, jahr, false⟩
      else none
  | _ => none

/-- Bit `k` of `n` (binary). -/
def nbit (n k : Nat) : Nat := n / 2 ^ k % 2

/-- Builds the 59-bit frame that broadcasts the given calendar fields, per
the DCF77 layout that `computeTime` decodes: little-endian BCD digits at
bits 21-27 (minute), 29-34 (hour), 36-41 (day), 42-44 (weekday),
45-49 (month), 50-57 (year); even-parity bits at 28, 35 and 58;
marker bits 0 and 20; the DST announcement on bits 17/18. -/
def encodeFrame (mi h d wd mo y : Nat) (dst : Bool) : List Nat :=
  let m1 := nbit (mi % 10) 0
  let m2 := nbit (mi % 10) 1
  let m4 := nbit (mi % 10) 2
  let m8 := nbit (mi % 10) 3
  let m10 := nbit (mi / 10) 0
  let m20 := nbit (mi / 10) 1
  let m40 := nbit (mi / 10) 2
  let h1 := nbit (h % 10) 0
  let h2 := nbit (h % 10) 1
  let h4 := nbit (h % 10) 2
  let h8 := nbit (h % 10) 3
  let h10 := nbit (h / 10) 0
  let h20 := nbit (h / 10) 1
  let d1 := nbit (d % 10) 0
  let d2 := nbit (d % 10) 1
  let d4 := nbit (d % 10) 2
  let d8 := nbit (d % 10) 3
  let d10 := nbit (d / 10) 0
  let d20 := nbit (d / 10) 1
  let w1 := nbit wd 0
  let w2 := nbit wd 1
  let w4 := nbit wd 2
  let o1 := nbit (mo % 10) 0
  let o2 := nbit (mo % 10) 1
  let o4 := nbit (mo % 10) 2
  let o8 := nbit (mo % 10) 3
  let o10 := nbit (mo / 10) 0
  let y1 := nbit (y % 10) 0
  let y2 := nbit (y % 10) 1
  let y4 := nbit (y % 10) 2
  let y8 := nbit (y % 10) 3
  let y10 := nbit (y / 10) 0
  let y20 := nbit (y / 10) 1
  let y40 := nbit (y / 10) 2
  let y80 := nbit (y / 10) 3
  0 :: 0 :: 0 :: 0 :: 0 :: 0 :: 0 :: 0 :: 0 :: 0 ::
  0 :: 0 :: 0 :: 0 :: 0 :: 0 :: 0 ::
  (if dst then 1 else 0) :: (if dst then 0 else 1) :: 0 ::
  1 :: m1 :: m2 :: m4 :: m8 :: m10 :: m20 :: m40 ::
  ((m1 + m2 + m4 + m8 + m10 + m20 + m40) % 2) ::
  h1 :: h2 :: h4 :: h8 :: h10 :: h20 ::
  ((h1 + h2 + h4 + h8 + h10 + h20) % 2) ::
  d1 :: d2 :: d4 :: d8 :: d10 :: d20 :: w1 :: w2 :: w4 ::
  o1 :: o2 :: o4 :: o8 :: o10 ::
  y1 :: y2 :: y4 :: y8 :: y10 :: y20 :: y40 :: y80 ::
  ((d1 + d2 + d4 + d8 + d10 + d20 + w1 + w2 + w4 + o1 + o2 + o4 + o8 +
    o10 + y1 + y2 + y4 + y8 + y10 + y20 + y40 + y80) % 2) :: []

/-! ### Part B: `src/webtime.py` — synchronization controller -/

/-- `pulsefrequency = 60` — seconds per pulse. -/
def pulsefrequency : Nat := 60

/-- `pulsessince12(timestr)` (lines 78-84) on the parsed `(h, m)` pair:
`((h % 12) * 3600 + m * 60) // pulsefrequency`. -/
def pulsessince12 (hm : Nat × Nat) : Nat :=
  ((hm.1 % 12) * 3600 + hm.2 * 60) / pulsefrequency

/-- The persisted record written to `lastpulseat.txt`: the `HH:MM` pair and
the two phase booleans. -/
structure PulseRecord where
  hm : Nat × Nat
  a : Bool
  b : Bool
  deriving DecidableEq, Repr

/-- The durable files the controller touches: `lastpulseat.txt` and
`firstruntime.txt`, each possibly absent. -/
structure Storage where
  lastpulseat : Option PulseRecord
  firstruntime : Option (Nat × Nat)
  deriving DecidableEq, Repr

/-- `pulsetoclock(last_hm, a, b)` (lines 86-105): flips both phases, drives
the GPIO lines (external effect), advances `last_hm` by one minute with
`m += 1; h = (h + m // 60) % 12; m %= 60`, writes the new record to
`lastpulseat.txt`, and returns `(new_hm, a, b)`. -/
def pulsetoclock (last : Nat × Nat) (a b : Bool) (st : Storage) :
    ((Nat × Nat) × Bool × Bool) × Storage :=
  let a' := !a
  let b' := !b
  let m := last.2 + 1
  let h := (last.1 + m / 60) % 12
  let m' := m % 60
  (((h, m'), a', b'), { st with lastpulseat := some ⟨(h, m'), a', b'⟩ })

/-- `calcoffset(current_hm)` (lines 107-131).  With `lastpulseat.txt`
present, reads `(last_hm, a, b)` from it; otherwise bootstraps `last_hm`
from `firstruntime.txt` with phases `(False, True)` and writes the initial
record, and fails (`None` quadruple, modelled as `none`) when
`firstruntime.txt` is missing too.  Returns
`offset = pulsessince12(current_hm) - pulsessince12(last_hm)` (raw signed
difference) together with `last_hm, a, b`, and the possibly-updated
storage. -/
def calcoffset (current : Nat × Nat) (st : Storage) :
    Option (Int × (Nat × Nat) × Bool × Bool) × Storage :=
  match st.lastpulseat with
  | some r =>
      (some ((pulsessince12 current : Int) - (pulsessince12 r.hm : Int),
        r.hm, r.a, r.b), st)
  | none =>
      match st.firstruntime with
      | none => (none, st)
      | some base =>
          (some ((pulsessince12 current : Int) - (pulsessince12 base : Int),
            base, false, true),
           { st with lastpulseat := some ⟨base, false, true⟩ })

/-- The body of one `clock_loop` iteration (lines 238-243): compute the
offset for the current RTC time; when it is not `None` and not zero, call
`pulsetoclock` once (its return value is discarded; persistence happens
inside it).  Returns the number of pulses driven and the new storage. -/
def clockLoopStep (current : Nat × Nat) (st : Storage) : Nat × Storage :=
  match calcoffset current st with
  | (none, st1) => (0, st1)
  | (some (offset, last, a, b), st1) =>
      if offset ≠ 0 then (1, (pulsetoclock last a b st1).2) else (0, st1)

/-- The catch-up loop of the `/sync` handler (line 207-208):
`for _ in range(max(0, offset)): last_hm, a, b = pulsetoclock(last_hm, a, b)`. -/
def syncPulseLoop :
    Nat → ((Nat × Nat) × Bool × Bool) → Storage →
      ((Nat × Nat) × Bool × Bool) × Storage
  | 0, s, st => (s, st)
  | n + 1, s, st =>
      let r := pulsetoclock s.1 s.2.1 s.2.2 st
      syncPulseLoop n r.1 r.2

/-- `sync_clock` (lines 179-209) after input validation: overwrite
`firstruntime.txt` with the submitted time, delete `lastpulseat.txt`, run
`calcoffset` on the current time (`None` offset is a failure response,
modelled as `none`), and for a nonzero offset pulse `max(0, offset)`
times.  Returns the number of pulses driven and the final storage. -/
def syncClock (input now : Nat × Nat) (st : Storage) :
    Option (Nat × Storage) :=
  let st1 : Storage :=
    { st with firstruntime := some input, lastpulseat := none }
  match calcoffset now st1 with
  | (none, _) => none
  | (some (offset, last, a, b), st2) =>
      if offset ≠ 0 then
        let r := syncPulseLoop offset.toNat (last, a, b) st2
        some (offset.toNat, r.2)
      else some (0, st2)

/-- The pulse index recorded in storage, when a record exists. -/
def storedIndex (st : Storage) : Option Nat :=
  st.lastpulseat.map (fun r => pulsessince12 r.hm)

/-- `pulseminute(timestring, a, b)` from `src/main.py` lines 188-201:
flips both phase booleans, drives the minute motor for 300 ms, persists
the time string together with the new pair to `lastpulseat.txt`, and
returns the new `a` (its caller then sets `b = not a`).  Modelled as the
new phase pair it drives and persists. -/
def pulseminute (a b : Bool) : Bool × Bool := (!a, !b)

end Clock

namespace Clock

/-! ### Helper lemmas: BCD digit decomposition -/

/-- A two-digit BCD value up to 59 is recovered from its seven frame bits. -/
theorem bcd_minute : ∀ m : Nat, m ≤ 59 →
    nbit (m % 10) 0 + 2 * nbit (m % 10) 1 + 4 * nbit (m % 10) 2 +
      8 * nbit (m % 10) 3 + 10 * nbit (m / 10) 0 + 20 * nbit (m / 10) 1 +
      40 * nbit (m / 10) 2 = m := by decide

/-- A two-digit BCD value up to 39 is recovered from its six frame bits
(hour and day fields). -/
theorem bcd_sixbit : ∀ n : Nat, n ≤ 39 →
    nbit (n % 10) 0 + 2 * nbit (n % 10) 1 + 4 * nbit (n % 10) 2 +
      8 * nbit (n % 10) 3 + 10 * nbit (n / 10) 0 + 20 * nbit (n / 10) 1 =
      n := by decide

/-- A weekday value up to 7 is recovered from its three frame bits. -/
theorem bcd_weekday : ∀ w : Nat, w ≤ 7 →
    nbit w 0 + 2 * nbit w 1 + 4 * nbit w 2 = w := by decide

/-- A month value up to 19 is recovered from its five frame bits. -/
theorem bcd_month : ∀ n : Nat, n ≤ 19 →
    nbit (n % 10) 0 + 2 * nbit (n % 10) 1 + 4 * nbit (n % 10) 2 +
      8 * nbit (n % 10) 3 + 10 * nbit (n / 10) 0 = n := by decide

/-- A two-digit BCD year is recovered from its eight frame bits. -/
theorem bcd_year : ∀ y : Nat, y ≤ 99 →
    nbit (y % 10) 0 + 2 * nbit (y % 10) 1 + 4 * nbit (y % 10) 2 +
      8 * nbit (y % 10) 3 + 10 * nbit (y / 10) 0 + 20 * nbit (y / 10) 1 +
      40 * nbit (y / 10) 2 + 80 * nbit (y / 10) 3 = y := by decide

/-! ### Claim C2 -/

/-- Claim C2 (corrected by adding the DST-bit condition, see
`decode_dst_ambiguous_cex`): for every 59-bit frame with bit 0 = 0,
bit 20 = 1, even parity over bits 21-28, 29-35 and 36-58, and at least one
of the DST bits 17/18 set, the decoder succeeds and the decoded fields are
exactly the BCD-weighted sums of the frame bits; consequently encoding any
in-range field tuple and decoding recovers it exactly (round-trip). -/
theorem decode_success_roundtrip :
    (∀ (b0 b1 b2 b3 b4 b5 b6 b7 b8 b9 b10 b11 b12 b13 b14 b15 b16 b17 b18
        b19 b20 b21 b22 b23 b24 b25 b26 b27 b28 b29 b30 b31 b32 b33 b34
        b35 b36 b37 b38 b39 b40 b41 b42 b43 b44 b45 b46 b47 b48 b49 b50
        b51 b52 b53 b54 b55 b56 b57 b58 : Nat),
      b0 = 0 → b20 = 1 →
      (b21 + b22 + b23 + b24 + b25 + b26 + b27 + b28) % 2 = 0 →
      (b29 + b30 + b31 + b32 + b33 + b34 + b35) % 2 = 0 →
      (b36 + b37 + b38 + b39 + b40 + b41 + b42 + b43 + b44 + b45 + b46 +
      b47 + b48 + b49 + b50 + b51 + b52 + b53 + b54 + b55 + b56 + b57 +
      b58) % 2 = 0 →
      b17 = 1 ∨ b18 = 1 →
      decodeFrame
        (b0 :: b1 :: b2 :: b3 :: b4 :: b5 :: b6 :: b7 :: b8 :: b9 :: b10
         :: b11 :: b12 :: b13 :: b14 :: b15 :: b16 :: b17 :: b18 :: b19 ::
         b20 :: b21 :: b22 :: b23 :: b24 :: b25 :: b26 :: b27 :: b28 ::
         b29 :: b30 :: b31 :: b32 :: b33 :: b34 :: b35 :: b36 :: b37 ::
         b38 :: b39 :: b40 :: b41 :: b42 :: b43 :: b44 :: b45 :: b46 ::
         b47 :: b48 :: b49 :: b50 :: b51 :: b52 :: b53 :: b54 :: b55 ::
         b56 :: b57 :: b58 :: []) =
        some ⟨b21 + 2 * b22 + 4 * b23 + 8 * b24 + 10 * b25 + 20 * b26 + 40 * b27,
          b29 + 2 * b30 + 4 * b31 + 8 * b32 + 10 * b33 + 20 * b34,
          b36 + 2 * b37 + 4 * b38 + 8 * b39 + 10 * b40 + 20 * b41,
          b42 + 2 * b43 + 4 * b44,
          b45 + 2 * b46 + 4 * b47 + 8 * b48 + 10 * b49,
          b50 + 2 * b51 + 4 * b52 + 8 * b53 + 10 * b54 + 20 * b55 + 40 * b56 + 80 * b57,
          if b17 = 1 then true else false⟩) ∧
    (∀ (mi hr d wd mo y : Nat) (dst : Bool),
      mi ≤ 59 → hr ≤ 23 → 1 ≤ d → d ≤ 31 → 1 ≤ wd → wd ≤ 7 →
      1 ≤ mo → mo ≤ 12 → y ≤ 99 →
      decodeFrame (encodeFrame mi hr d wd mo y dst) =
        some ⟨mi, hr, d, wd, mo, y, dst⟩) := by
  have part1 : ∀ (b0 b1 b2 b3 b4 b5 b6 b7 b8 b9 b10 b11 b12 b13 b14 b15 b16 b17 b18
        b19 b20 b21 b22 b23 b24 b25 b26 b27 b28 b29 b30 b31 b32 b33 b34
        b35 b36 b37 b38 b39 b40 b41 b42 b43 b44 b45 b46 b47 b48 b49 b50
        b51 b52 b53 b54 b55 b56 b57 b58 : Nat),
      b0 = 0 → b20 = 1 →
      (b21 + b22 + b23 + b24 + b25 + b26 + b27 + b28) % 2 = 0 →
      (b29 + b30 + b31 + b32 + b33 + b34 + b35) % 2 = 0 →
      (b36 + b37 + b38 + b39 + b40 + b41 + b42 + b43 + b44 + b45 + b46 +
      b47 + b48 + b49 + b50 + b51 + b52 + b53 + b54 + b55 + b56 + b57 +
      b58) % 2 = 0 →
      b17 = 1 ∨ b18 = 1 →
      decodeFrame
        (b0 :: b1 :: b2 :: b3 :: b4 :: b5 :: b6 :: b7 :: b8 :: b9 :: b10
         :: b11 :: b12 :: b13 :: b14 :: b15 :: b16 :: b17 :: b18 :: b19 ::
         b20 :: b21 :: b22 :: b23 :: b24 :: b25 :: b26 :: b27 :: b28 ::
         b29 :: b30 :: b31 :: b32 :: b33 :: b34 :: b35 :: b36 :: b37 ::
         b38 :: b39 :: b40 :: b41 :: b42 :: b43 :: b44 :: b45 :: b46 ::
         b47 :: b48 :: b49 :: b50 :: b51 :: b52 :: b53 :: b54 :: b55 ::
         b56 :: b57 :: b58 :: []) =
        some ⟨b21 + 2 * b22 + 4 * b23 + 8 * b24 + 10 * b25 + 20 * b26 + 40 * b27,
          b29 + 2 * b30 + 4 * b31 + 8 * b32 + 10 * b33 + 20 * b34,
          b36 + 2 * b37 + 4 * b38 + 8 * b39 + 10 * b40 + 20 * b41,
          b42 + 2 * b43 + 4 * b44,
          b45 + 2 * b46 + 4 * b47 + 8 * b48 + 10 * b49,
          b50 + 2 * b51 + 4 * b52 + 8 * b53 + 10 * b54 + 20 * b55 + 40 * b56 + 80 * b57,
          if b17 = 1 then true else false⟩ := by
    intro b0 b1 b2 b3 b4 b5 b6 b7 b8 b9 b10 b11 b12 b13 b14 b15 b16 b17 b18 b19 b20 b21 b22 b23 b24 b25 b26 b27 b28 b29 b30 b31 b32 b33 b34 b35 b36 b37 b38 b39 b40 b41 b42 b43 b44 b45 b46 b47 b48 b49 b50 b51 b52 b53 b54 b55 b56 b57 b58 h0 h20 hp1 hp2 hp3 hdst
    simp only [decodeFrame]
    rw [if_neg (by omega), if_neg (by omega)]
    by_cases h17 : b17 = 1
    · rw [if_pos h17, if_pos h17]
    · rcases hdst with h | h18
      · exact absurd h h17
      · rw [if_neg h17, if_neg h17, if_pos h18]
  refine ⟨part1, ?_⟩
  intro mi hr d wd mo y dst hmi hhr hd1 hd hw1 hw hmo1 hmo hy
  have hhr39 : hr ≤ 39 := by omega
  have hd39 : d ≤ 39 := by omega
  have hmo19 : mo ≤ 19 := by omega
  have hw7 : wd ≤ 7 := hw
  cases dst with
  | true =>
      simp only [encodeFrame, decodeFrame]
      rw [if_neg (by omega), if_neg (by omega), if_pos (by norm_num)]
      simp only [Option.some.injEq, DecodedTime.mk.injEq]
      exact ⟨bcd_minute mi hmi, bcd_sixbit hr hhr39, bcd_sixbit d hd39,
        bcd_weekday wd hw7, bcd_month mo hmo19, bcd_year y hy, trivial⟩
  | false =>
      simp only [encodeFrame, decodeFrame]
      rw [if_neg (by omega), if_neg (by omega), if_neg (by norm_num),
        if_pos (by norm_num)]
      simp only [Option.some.injEq, DecodedTime.mk.injEq]
      exact ⟨bcd_minute mi hmi, bcd_sixbit hr hhr39, bcd_sixbit d hd39,
        bcd_weekday wd hw7, bcd_month mo hmo19, bcd_year y hy, trivial⟩

/-- Witness for C2: encoding 14:37 on Saturday 24.10.2026 (CEST) and
decoding recovers every field. -/
theorem decode_success_roundtrip_w :
    decodeFrame (encodeFrame 37 14 24 6 10 26 true) =
      some ⟨37, 14, 24, 6, 10, 26, true⟩ :=
  decode_success_roundtrip.2 37 14 24 6 10 26 true (by decide) (by decide)
    (by decide) (by decide) (by decide) (by decide) (by decide) (by decide)
    (by decide)

/-- Counterexample to C2 as stated: the frame that is all zeros except the
bit-20 marker satisfies bit 0 = 0, bit 20 = 1 and all three even-parity
checks, yet the decoder returns the failure value because neither DST bit
17 nor 18 is set. -/
theorem decode_dst_ambiguous_cex :
    (List.replicate 20 0 ++ 1 :: List.replicate 38 0).getD 0 0 = 0 ∧
    (List.replicate 20 0 ++ 1 :: List.replicate 38 0).getD 20 0 = 1 ∧
    (((List.replicate 20 0 ++ 1 :: List.replicate 38 0).drop 21).take
      8).sum % 2 = 0 ∧
    (((List.replicate 20 0 ++ 1 :: List.replicate 38 0).drop 29).take
      7).sum % 2 = 0 ∧
    (((List.replicate 20 0 ++ 1 :: List.replicate 38 0).drop 36).take
      23).sum % 2 = 0 ∧
    decodeFrame (List.replicate 20 0 ++ 1 :: List.replicate 38 0) =
      none := by decide

/-! ### Claim C3 -/

/-- Claim C3: any complete 59-bit frame that violates a marker bit, or has
odd parity in one of the three groups, or has neither DST bit set, decodes
to the distinguished failure value, never a partial result. -/
theorem decode_invalid_frame_fails (b0 b1 b2 b3 b4 b5 b6 b7 b8 b9 b10 b11 b12 b13 b14 b15 b16 b17 b18 b19
    b20 b21 b22 b23 b24 b25 b26 b27 b28 b29 b30 b31 b32 b33 b34 b35 b36
    b37 b38 b39 b40 b41 b42 b43 b44 b45 b46 b47 b48 b49 b50 b51 b52 b53
    b54 b55 b56 b57 b58 : Nat)
    (h : (b0 ≠ 0 ∨ b20 ≠ 1) ∨
      ((b21 + b22 + b23 + b24 + b25 + b26 + b27 + b28) % 2 = 1 ∨
        (b29 + b30 + b31 + b32 + b33 + b34 + b35) % 2 = 1 ∨
        ((b36 + b37 + b38 + b39 + b40 + b41 + b42 + b43 + b44 + b45 + b46 +
        b47 + b48 + b49 + b50 + b51 + b52 + b53 + b54 + b55 + b56 + b57 +
        b58) % 2 = 1) ∨
      (b17 ≠ 1 ∧ b18 ≠ 1))) :
    decodeFrame
      (b0 :: b1 :: b2 :: b3 :: b4 :: b5 :: b6 :: b7 :: b8 :: b9 :: b10 ::
       b11 :: b12 :: b13 :: b14 :: b15 :: b16 :: b17 :: b18 :: b19 :: b20
       :: b21 :: b22 :: b23 :: b24 :: b25 :: b26 :: b27 :: b28 :: b29 ::
       b30 :: b31 :: b32 :: b33 :: b34 :: b35 :: b36 :: b37 :: b38 :: b39
       :: b40 :: b41 :: b42 :: b43 :: b44 :: b45 :: b46 :: b47 :: b48 ::
       b49 :: b50 :: b51 :: b52 :: b53 :: b54 :: b55 :: b56 :: b57 :: b58
       :: []) = none := by
  simp only [decodeFrame]
  split_ifs <;> first | rfl | omega

/-- Witness for C3: an alternating frame whose bit 0 equals 1 violates the
minute-start marker and fails to decode. -/
theorem decode_invalid_frame_fails_w :
    decodeFrame
      (1 :: 0 :: 1 :: 0 :: 1 :: 0 :: 1 :: 0 :: 1 :: 0 :: 1 :: 0 :: 1 :: 0
       :: 1 :: 0 :: 1 :: 0 :: 1 :: 0 :: 1 :: 0 :: 1 :: 0 :: 1 :: 0 :: 1 ::
       0 :: 1 :: 0 :: 1 :: 0 :: 1 :: 0 :: 1 :: 0 :: 1 :: 0 :: 1 :: 0 :: 1
       :: 0 :: 1 :: 0 :: 1 :: 0 :: 1 :: 0 :: 1 :: 0 :: 1 :: 0 :: 1 :: 0 ::
       1 :: 0 :: 1 :: 0 :: 1 :: []) = none :=
  decode_invalid_frame_fails
    1 0 1 0 1 0 1 0 1 0 1 0 1 0 1 0 1 0 1 0 1 0 1 0 1 0 1 0 1 0 1 0 1 0 1
    0 1 0 1 0 1 0 1 0 1 0 1 0 1 0 1 0 1 0 1 0 1 0 1
    (Or.inl (Or.inl (by decide)))

end Clock

namespace Clock

/-! ### Claim C5 -/

/-- Claim C5: on a detected cell boundary, with measured pulse duration
`sum(a) * samplespeed` milliseconds, a duration at or below the noise
threshold (40 ms) emits no bit and leaves `timeInfo`/`bitNum` unchanged; a
duration above the noise threshold and at or below the zero/one split
threshold (180 ms) emits bit 0; a duration above the split threshold emits
bit 1.  `classifyCell` is a function, so behaviour at the exact threshold
values is deterministic. -/
theorem classifier_threshold_rule (a : List Nat)
    (hb : a.getD 0 0 = 0 ∧ a.getD 1 0 = 1 ∧ 7 < (a.take 10).sum) :
    (a.sum * samplespeed ≤ noisethreshms →
      classifyCell a = none ∧ ∀ ti n, classifyAppend a ti n = (ti, n)) ∧
    (noisethreshms < a.sum * samplespeed →
      a.sum * samplespeed ≤ zerothreshms → classifyCell a = some 0) ∧
    (zerothreshms < a.sum * samplespeed → classifyCell a = some 1) := by
  refine ⟨fun hn => ?_, fun h1 h2 => ?_, fun h1 => ?_⟩
  · have hc : classifyCell a = none := by
      simp only [samplespeed, noisethreshms] at hn
      simp only [classifyCell, samplespeed, noisethreshms]
      rw [if_pos hb, if_neg (by omega)]
    exact ⟨hc, fun ti n => by simp only [classifyAppend, hc]⟩
  · simp only [samplespeed, noisethreshms, zerothreshms] at h1 h2
    simp only [classifyCell, samplespeed, noisethreshms, zerothreshms]
    rw [if_pos hb, if_pos (by omega), if_pos (by omega)]
  · simp only [samplespeed, zerothreshms] at h1
    simp only [classifyCell, samplespeed, noisethreshms, zerothreshms]
    rw [if_pos hb, if_pos (by omega), if_neg (by omega)]

/-- Witness for C5: three concrete 70-sample windows with boundary
detected and pulse durations 40 ms, 100 ms and 200 ms respectively. -/
theorem classifier_threshold_rule_w :
    classifyCell (0 :: 1 :: 1 :: 1 :: 1 :: 1 :: 1 :: 1 :: 1 :: 0 ::
      List.replicate 60 0) = none ∧
    classifyCell (0 :: (List.replicate 20 1 ++ List.replicate 49 0)) =
      some 0 ∧
    classifyCell (0 :: (List.replicate 40 1 ++ List.replicate 29 0)) =
      some 1 :=
  ⟨((classifier_threshold_rule _ (by decide)).1 (by decide)).1,
   (classifier_threshold_rule _ (by decide)).2.1 (by decide) (by decide),
   (classifier_threshold_rule _ (by decide)).2.2 (by decide)⟩

/-! ### Claim C7 -/

/-- Claim C7 (corrected, see `decode_range_violation_cex`): passing the
marker and parity checks does not confine the decoded fields to the
documented calendar ranges; what does hold for frames of 0/1 bits is the
weighted-sum bound of each field: minute ≤ 85, hour ≤ 45, day ≤ 45,
weekday ≤ 7, month ≤ 25, year ≤ 165. -/
theorem decode_field_bounds (b0 b1 b2 b3 b4 b5 b6 b7 b8 b9 b10 b11 b12 b13 b14 b15 b16 b17 b18 b19
    b20 b21 b22 b23 b24 b25 b26 b27 b28 b29 b30 b31 b32 b33 b34 b35 b36
    b37 b38 b39 b40 b41 b42 b43 b44 b45 b46 b47 b48 b49 b50 b51 b52 b53
    b54 b55 b56 b57 b58 : Nat)
    (hb : ∀ x ∈ [b21, b22, b23, b24, b25, b26, b27, b29, b30, b31, b32, b33, b34,
          b36, b37, b38, b39, b40, b41, b42, b43, b44, b45, b46, b47, b48,
          b49, b50, b51, b52, b53, b54, b55, b56, b57], x ≤ 1)
    (mnt hrs dy wk mth yr : Nat) (cs : Bool)
    (hdec : decodeFrame
      (b0 :: b1 :: b2 :: b3 :: b4 :: b5 :: b6 :: b7 :: b8 :: b9 :: b10 ::
       b11 :: b12 :: b13 :: b14 :: b15 :: b16 :: b17 :: b18 :: b19 :: b20
       :: b21 :: b22 :: b23 :: b24 :: b25 :: b26 :: b27 :: b28 :: b29 ::
       b30 :: b31 :: b32 :: b33 :: b34 :: b35 :: b36 :: b37 :: b38 :: b39
       :: b40 :: b41 :: b42 :: b43 :: b44 :: b45 :: b46 :: b47 :: b48 ::
       b49 :: b50 :: b51 :: b52 :: b53 :: b54 :: b55 :: b56 :: b57 :: b58
       :: []) =
      some ⟨mnt, hrs, dy, wk, mth, yr, cs⟩) :
    mnt ≤ 85 ∧ hrs ≤ 45 ∧ dy ≤ 45 ∧ wk ≤ 7 ∧ mth ≤ 25 ∧ yr ≤ 165 := by
  simp only [List.mem_cons, List.not_mem_nil, or_false, forall_eq_or_imp,
    forall_eq] at hb
  simp only [decodeFrame] at hdec
  split_ifs at hdec
  all_goals
    first
      | exact Option.noConfusion hdec
      | (rw [Option.some.injEq, DecodedTime.mk.injEq] at hdec
         obtain ⟨e1, e2, e3, e4, e5, e6, -⟩ := hdec
         omega)

/-- Witness for C7: the decoder accepts the frame with all minute bits
set (and a few date bits), decoding minute 85, day 3, weekday 1, month 1,
year 3, all within the weighted-sum bounds. -/
theorem decode_field_bounds_w :
    (85 : Nat) ≤ 85 ∧ (0 : Nat) ≤ 45 ∧ (3 : Nat) ≤ 45 ∧ (1 : Nat) ≤ 7 ∧
      (1 : Nat) ≤ 25 ∧ (3 : Nat) ≤ 165 :=
  decode_field_bounds
    0 0 0 0 0 0 0 0 0 0 0 0 0 0 0 0 0 1 0 0 1 1 1 1 1 1 1 1 1 0 0 0 0 0 0
    0 1 1 0 0 0 0 1 0 0 1 0 0 0 0 1 1 0 0 0 0 0 0 0
    (by decide) 85 0 3 1 1 3 true (by decide)

/-- Counterexample to C7 as stated: a frame with all seven minute bits set
passes every check (bit 0 = 0, bit 20 = 1, even parity, DST bit 17 set)
and decodes successfully, yet its minute field is 85, outside the
documented range 0-59 (its weekday 0 is likewise outside 1-7). -/
theorem decode_range_violation_cex :
    decodeFrame (List.replicate 17 0 ++ 1 :: 0 :: 0 :: 1 ::
        (List.replicate 8 1 ++ List.replicate 30 0)) =
      some ⟨85, 0, 0, 0, 0, 0, true⟩ ∧ ¬(85 ≤ 59) := by decide

end Clock

namespace Clock

/-! ### Helper lemmas: pulse index arithmetic -/

/-- The pulse index of a time with a well-formed minute field is below the
half-day cycle length 720. -/
theorem pulsessince12_lt_720 (hm : Nat × Nat) (h : hm.2 < 60) :
    pulsessince12 hm < 720 := by
  obtain ⟨hh, mm⟩ := hm
  have h' : mm < 60 := h
  simp only [pulsessince12, pulsefrequency]
  omega

/-- One `pulsetoclock` call advances the pulse index by one modulo the
half-day cycle, keeps the minute field well-formed, and persists exactly
the phase state it returns. -/
theorem pulsetoclock_spec (last : Nat × Nat) (a b : Bool) (st : Storage)
    (h : last.2 < 60) :
    pulsessince12 (pulsetoclock last a b st).1.1 =
      (pulsessince12 last + 1) % 720 ∧
    (pulsetoclock last a b st).1.1.2 < 60 ∧
    (pulsetoclock last a b st).2.lastpulseat =
      some ⟨(pulsetoclock last a b st).1.1, !a, !b⟩ := by
  obtain ⟨hh, mm⟩ := last
  have h' : mm < 60 := h
  refine ⟨?_, ?_, rfl⟩
  · simp only [pulsetoclock, pulsessince12, pulsefrequency]
    omega
  · simp only [pulsetoclock]
    omega

/-- Invariant of the `/sync` pulse loop: starting from a well-formed time
whose index plus the remaining pulse count stays within one half-day
cycle, with a storage record carrying that index, after `n` pulses both
the in-memory time and the persisted record carry the index advanced by
`n`. -/
theorem syncPulseLoop_spec (n : Nat) :
    ∀ (hm : Nat × Nat) (a b : Bool) (st : Storage), hm.2 < 60 →
      pulsessince12 hm + n < 720 →
      storedIndex st = some (pulsessince12 hm) →
      pulsessince12 (syncPulseLoop n (hm, a, b) st).1.1 =
        pulsessince12 hm + n ∧
      (syncPulseLoop n (hm, a, b) st).1.1.2 < 60 ∧
      storedIndex (syncPulseLoop n (hm, a, b) st).2 =
        some (pulsessince12 hm + n) := by
  induction n with
  | zero =>
      intro hm a b st h1 _ h3
      exact ⟨by simp [syncPulseLoop], by simpa [syncPulseLoop] using h1,
        by simpa [syncPulseLoop] using h3⟩
  | succ n ih =>
      rintro ⟨hh, mm⟩ a b st h1 h2 h3
      have h1' : mm < 60 := h1
      have hnext : pulsessince12 ((hh + (mm + 1) / 60) % 12, (mm + 1) % 60) =
          pulsessince12 (hh, mm) + 1 := by
        obtain ⟨hpi, -, -⟩ :=
          pulsetoclock_spec (hh, mm) a b st h1
        have : (pulsessince12 (hh, mm) + 1) % 720 =
            pulsessince12 (hh, mm) + 1 := Nat.mod_eq_of_lt (by omega)
        exact hpi.trans this
      have hstep : syncPulseLoop (n + 1) ((hh, mm), a, b) st =
          syncPulseLoop n (((hh + (mm + 1) / 60) % 12, (mm + 1) % 60),
            !a, !b)
            ⟨some ⟨((hh + (mm + 1) / 60) % 12, (mm + 1) % 60), !a, !b⟩,
              st.firstruntime⟩ := rfl
      rw [hstep]
      obtain ⟨c1, c2, c3⟩ := ih ((hh + (mm + 1) / 60) % 12, (mm + 1) % 60)
        (!a) (!b)
        ⟨some ⟨((hh + (mm + 1) / 60) % 12, (mm + 1) % 60), !a, !b⟩,
          st.firstruntime⟩
        (Nat.mod_lt _ (by omega)) (by rw [hnext]; omega) rfl
      refine ⟨?_, c2, ?_⟩
      · rw [c1, hnext]
        omega
      · rw [c3, hnext]
        exact congrArg some (by omega)

end Clock

namespace Clock

/-! ### Claim C4 -/

/-- Claim C4: when the `/sync` handler reconciles with a positive offset
`k` (baseline pulse index `p`, target pulse index `q`, `k = q - p > 0`),
it drives exactly `k` pulses, the final persisted pulse index equals the
target index, and after each of the first `i ≤ k` pulses the persisted
record already carries index `p + i` — the state is persisted after every
pulse and before the next one is issued. -/
theorem sync_catch_up_exact (input now : Nat × Nat) (st : Storage)
    (hmi : input.2 < 60) (hmn : now.2 < 60)
    (hlt : pulsessince12 input < pulsessince12 now) :
    (∃ st', syncClock input now st =
        some (pulsessince12 now - pulsessince12 input, st') ∧
        storedIndex st' = some (pulsessince12 now)) ∧
    (∀ i ≤ pulsessince12 now - pulsessince12 input,
      storedIndex (syncPulseLoop i ((input, false, true))
        ⟨some ⟨input, false, true⟩, some input⟩).2 =
        some (pulsessince12 input + i)) := by
  have h720 := pulsessince12_lt_720 now hmn
  constructor
  · have hco : calcoffset now
        { st with firstruntime := some input, lastpulseat := none } =
        (some ((pulsessince12 now : Int) - pulsessince12 input,
          input, false, true),
         ⟨some ⟨input, false, true⟩, some input⟩) := rfl
    have hoff : ((pulsessince12 now : Int) - pulsessince12 input) ≠ 0 := by
      omega
    have htn : ((pulsessince12 now : Int) - pulsessince12 input).toNat =
        pulsessince12 now - pulsessince12 input := by omega
    refine ⟨(syncPulseLoop ((pulsessince12 now : Int) -
        pulsessince12 input).toNat (input, false, true)
        ⟨some ⟨input, false, true⟩, some input⟩).2, ?_, ?_⟩
    · simp only [syncClock, hco, if_pos hoff]
      rw [htn]
    · obtain ⟨-, -, hsi⟩ := syncPulseLoop_spec
        ((pulsessince12 now : Int) - pulsessince12 input).toNat input
        false true ⟨some ⟨input, false, true⟩, some input⟩ hmi
        (by omega) rfl
      rw [hsi]
      exact congrArg some (by omega)
  · intro i hi
    exact (syncPulseLoop_spec i input false true
      ⟨some ⟨input, false, true⟩, some input⟩ hmi (by omega) rfl).2.2

/-- Witness for C4: baseline 00:05 (index 5), target 00:08 (index 8):
exactly 3 pulses, persisted index 8, intermediate persists at 6, 7, 8. -/
theorem sync_catch_up_exact_w :
    (∃ st', syncClock (0, 5) (0, 8) ⟨none, none⟩ =
        some (pulsessince12 (0, 8) - pulsessince12 (0, 5), st') ∧
        storedIndex st' = some (pulsessince12 (0, 8))) ∧
    (∀ i ≤ pulsessince12 (0, 8) - pulsessince12 (0, 5),
      storedIndex (syncPulseLoop i (((0, 5), false, true))
        ⟨some ⟨(0, 5), false, true⟩, some (0, 5)⟩).2 =
        some (pulsessince12 (0, 5) + i)) :=
  sync_catch_up_exact (0, 5) (0, 8) ⟨none, none⟩ (by decide) (by decide)
    (by decide)

/-! ### Claim C6 -/

/-- Counterexample to C6 as stated: with persisted record 00:00 and target
00:02 (offset 2), the first `clock_loop` reconcile applies one pulse
(advancing the record to 00:01), and the second reconcile with the same
target and no intervening state change applies one further pulse, not
zero. -/
theorem reconcile_not_idempotent_cex :
    (clockLoopStep (0, 2)
      (clockLoopStep (0, 2) ⟨some ⟨(0, 0), false, true⟩, none⟩).2).1 = 1 ∧
    ¬((clockLoopStep (0, 2)
      (clockLoopStep (0, 2) ⟨some ⟨(0, 0), false, true⟩, none⟩).2).1 = 0) :=
  by decide

/-- Claim C6 (corrected, see `reconcile_not_idempotent_cex`): one
`clock_loop` reconcile applies at most one pulse, so pairwise idempotence
holds only once the controller is within one pulse of the target: if the
persisted index is at most one below the target index, the second of two
consecutive reconciles with the same target applies zero pulses. -/
theorem reconcile_idempotent_when_converged (target : Nat × Nat)
    (st : Storage) (r : PulseRecord) (hr : st.lastpulseat = some r)
    (hm : r.hm.2 < 60) (ht : target.2 < 60)
    (h0 : pulsessince12 r.hm ≤ pulsessince12 target)
    (h1 : pulsessince12 target ≤ pulsessince12 r.hm + 1) :
    (clockLoopStep target (clockLoopStep target st).2).1 = 0 := by
  have hco : calcoffset target st =
      (some ((pulsessince12 target : Int) - pulsessince12 r.hm,
        r.hm, r.a, r.b), st) := by
    simp only [calcoffset, hr]
  by_cases heq : pulsessince12 target = pulsessince12 r.hm
  · have hstep : clockLoopStep target st = (0, st) := by
      simp only [clockLoopStep, hco]
      rw [if_neg (by omega)]
    have hstep2 : (clockLoopStep target st).2 = st := by rw [hstep]
    rw [hstep2]
    simp only [clockLoopStep, hco]
    rw [if_neg (by omega)]
  · have hq : pulsessince12 target = pulsessince12 r.hm + 1 := by omega
    have hoff : ((pulsessince12 target : Int) - pulsessince12 r.hm) ≠ 0 := by
      omega
    have hstep : clockLoopStep target st =
        (1, (pulsetoclock r.hm r.a r.b st).2) := by
      simp only [clockLoopStep, hco]
      rw [if_pos hoff]
    have hstep2 : (clockLoopStep target st).2 =
        (pulsetoclock r.hm r.a r.b st).2 := by rw [hstep]
    rw [hstep2]
    obtain ⟨hidx, hm2, hst⟩ := pulsetoclock_spec r.hm r.a r.b st hm
    have hidx1 : pulsessince12 (pulsetoclock r.hm r.a r.b st).1.1 =
        pulsessince12 target := by
      rw [hidx, Nat.mod_eq_of_lt (by
        have := pulsessince12_lt_720 target ht
        omega), hq]
    simp only [clockLoopStep, calcoffset, hst]
    rw [if_neg (by omega)]

/-- Witness for C6: persisted record 00:05, target 00:06 (offset 1): the
second consecutive reconcile applies zero pulses. -/
theorem reconcile_idempotent_when_converged_w :
    (clockLoopStep (0, 6)
      (clockLoopStep (0, 6) ⟨some ⟨(0, 5), false, true⟩, none⟩).2).1 = 0 :=
  reconcile_idempotent_when_converged (0, 6)
    ⟨some ⟨(0, 5), false, true⟩, none⟩ ⟨(0, 5), false, true⟩ rfl
    (by decide) (by decide) (by decide) (by decide)

end Clock

namespace Clock

/-! ### Claim C1 -/

/-- Counterexample to C1 as stated: with persisted record 11:59
(index 719) and current time 00:00 (index 0), `calcoffset` returns the
raw difference -719 — the offset is not normalized to a non-negative
count within one half-day cycle. -/
theorem calcoffset_raw_negative_cex :
    (calcoffset (0, 0) ⟨some ⟨(11, 59), false, true⟩, none⟩).1 =
      some (-719, (11, 59), false, true) ∧
    (-719 : Int) < 0 := by decide

/-- Claim C1 (corrected, see `calcoffset_raw_negative_cex`): the offset is
the raw signed difference and can be negative.  When it is negative, the
`clock_loop` body still treats it as work to do and advances the clock
forward by exactly one pulse (persisted index `+ 1` modulo 720 — never
backward), while the `max(0, offset)` loop of the `/sync` handler applies
zero pulses, skipping pulsing entirely. -/
theorem negative_offset_behavior :
    (∀ (current : Nat × Nat) (st : Storage) (r : PulseRecord),
      st.lastpulseat = some r → r.hm.2 < 60 →
      (pulsessince12 current : Int) - pulsessince12 r.hm < 0 →
      (clockLoopStep current st).1 = 1 ∧
      storedIndex (clockLoopStep current st).2 =
        some ((pulsessince12 r.hm + 1) % 720)) ∧
    (∀ (input now : Nat × Nat) (st : Storage),
      pulsessince12 now < pulsessince12 input →
      syncClock input now st =
        some (0, ⟨some ⟨input, false, true⟩, some input⟩)) := by
  constructor
  · intro current st r hr hm hneg
    have hco : calcoffset current st =
        (some ((pulsessince12 current : Int) - pulsessince12 r.hm,
          r.hm, r.a, r.b), st) := by
      simp only [calcoffset, hr]
    have hstep : clockLoopStep current st =
        (1, (pulsetoclock r.hm r.a r.b st).2) := by
      simp only [clockLoopStep, hco]
      rw [if_pos (by omega)]
    obtain ⟨hidx, -, hst⟩ := pulsetoclock_spec r.hm r.a r.b st hm
    rw [hstep]
    exact ⟨rfl, by simp [storedIndex, hst, hidx]⟩
  · intro input now st hlt
    have hco : calcoffset now
        { st with firstruntime := some input, lastpulseat := none } =
        (some ((pulsessince12 now : Int) - pulsessince12 input,
          input, false, true),
         ⟨some ⟨input, false, true⟩, some input⟩) := rfl
    have hoff : ((pulsessince12 now : Int) - pulsessince12 input) ≠ 0 := by
      omega
    have htn : ((pulsessince12 now : Int) - pulsessince12 input).toNat =
        0 := by omega
    simp only [syncClock, hco, if_pos hoff]
    rw [htn]
    rfl

/-- Witness for C1 (corrected): persisted 11:59, current 00:00
(offset -719): `clock_loop` advances forward one pulse to index 0, and
the `/sync` handler with baseline 11:59 at current time 00:00 applies
zero pulses. -/
theorem negative_offset_behavior_w :
    ((clockLoopStep (0, 0) ⟨some ⟨(11, 59), false, true⟩, none⟩).1 = 1 ∧
      storedIndex (clockLoopStep (0, 0)
        ⟨some ⟨(11, 59), false, true⟩, none⟩).2 =
        some ((pulsessince12 (11, 59) + 1) % 720)) ∧
    syncClock (11, 59) (0, 0) ⟨none, none⟩ =
      some (0, ⟨some ⟨(11, 59), false, true⟩, some (11, 59)⟩) :=
  ⟨negative_offset_behavior.1 (0, 0) ⟨some ⟨(11, 59), false, true⟩, none⟩
      ⟨(11, 59), false, true⟩ rfl (by decide) (by decide),
   negative_offset_behavior.2 (11, 59) (0, 0) ⟨none, none⟩ (by decide)⟩

/-! ### Claim C9 -/

/-- Claim C9: with no persisted record, `calcoffset` bootstraps from the
configured baseline, returning phases `(False, True)` and persisting the
initial record before any pulsing; with the baseline also absent it
returns the failure quadruple and the `clock_loop` body applies no pulse;
in the bootstrap scenario baseline 03:15 against target 03:16 the first
reconcile applies exactly one pulse. -/
theorem bootstrap_from_baseline :
    (∀ (current : Nat × Nat) (st : Storage) (base : Nat × Nat),
      st.lastpulseat = none → st.firstruntime = some base →
      calcoffset current st =
        (some ((pulsessince12 current : Int) - pulsessince12 base,
          base, false, true),
         ⟨some ⟨base, false, true⟩, st.firstruntime⟩)) ∧
    (∀ (current : Nat × Nat) (st : Storage),
      st.lastpulseat = none → st.firstruntime = none →
      calcoffset current st = (none, st) ∧
      clockLoopStep current st = (0, st)) ∧
    (clockLoopStep (3, 16) ⟨none, some (3, 15)⟩).1 = 1 := by
  refine ⟨?_, ?_, by decide⟩
  · intro current st base h1 h2
    simp only [calcoffset, h1, h2]
  · intro current st h1 h2
    have hco : calcoffset current st = (none, st) := by
      simp only [calcoffset, h1, h2]
    exact ⟨hco, by simp only [clockLoopStep, hco]⟩

/-- Witness for C9: bootstrap with baseline 03:15, and failure with both
files absent. -/
theorem bootstrap_from_baseline_w :
    calcoffset (3, 16) ⟨none, some (3, 15)⟩ =
      (some ((pulsessince12 (3, 16) : Int) - pulsessince12 (3, 15),
        (3, 15), false, true),
       ⟨some ⟨(3, 15), false, true⟩,
         (⟨none, some (3, 15)⟩ : Storage).firstruntime⟩) ∧
    calcoffset (0, 0) ⟨none, none⟩ = (none, ⟨none, none⟩) :=
  ⟨bootstrap_from_baseline.1 (3, 16) ⟨none, some (3, 15)⟩ (3, 15) rfl rfl,
   (bootstrap_from_baseline.2.1 (0, 0) ⟨none, none⟩ rfl rfl).1⟩

/-! ### Claim C10 -/

/-- Claim C10: each `clock_loop` iteration applies at most one pulse
regardless of the computed offset, and applies none when the offset is
zero or the state lookup failed. -/
theorem clock_loop_one_pulse (current : Nat × Nat) (st : Storage) :
    (clockLoopStep current st).1 ≤ 1 ∧
    ((calcoffset current st).1 = none → (clockLoopStep current st).1 = 0) ∧
    (∀ last a b, (calcoffset current st).1 = some (0, last, a, b) →
      (clockLoopStep current st).1 = 0) := by
  rcases hco : calcoffset current st with ⟨res, st1⟩
  rcases res with - | ⟨off, last, a, b⟩
  · refine ⟨?_, fun _ => ?_, fun l a' b' hs => ?_⟩
    · simp only [clockLoopStep, hco]
      exact Nat.zero_le 1
    · simp only [clockLoopStep, hco]
    · exact Option.noConfusion hs
  · refine ⟨?_, fun hn => ?_, fun l a' b' hs => ?_⟩
    · by_cases h : off = 0
      · simp only [clockLoopStep, hco]
        rw [if_neg (by omega)]
        exact Nat.zero_le 1
      · simp only [clockLoopStep, hco]
        rw [if_pos h]
    · exact Option.noConfusion hn
    · have h0 : off = 0 := congrArg Prod.fst (Option.some.inj hs)
      simp only [clockLoopStep, hco]
      rw [if_neg (by omega)]

/-- Witness for C10: a failed lookup applies zero pulses; a large offset
(record 05:00, target 05:05) still applies at most one pulse. -/
theorem clock_loop_one_pulse_w :
    (clockLoopStep (0, 0) ⟨none, none⟩).1 = 0 ∧
    (clockLoopStep (5, 5) ⟨some ⟨(5, 0), false, true⟩, none⟩).1 ≤ 1 :=
  ⟨(clock_loop_one_pulse (0, 0) ⟨none, none⟩).2.1 (by decide),
   (clock_loop_one_pulse (5, 5) ⟨some ⟨(5, 0), false, true⟩, none⟩).1⟩

/-! ### Claim C8 -/

/-- Claim C8: a `pulsetoclock` call maps a complementary phase pair to a
complementary pair, and the persisted record carries exactly the in-memory
pair; the `calcoffset` bootstrap initializes the complementary pair
`(False, True)`; `pulseminute` in `src/main.py` likewise preserves
complementarity. -/
theorem phase_pair_complementary :
    (∀ (last : Nat × Nat) (a b : Bool) (st : Storage),
      Bool.xor a b = true →
      Bool.xor (pulsetoclock last a b st).1.2.1
        (pulsetoclock last a b st).1.2.2 = true ∧
      (pulsetoclock last a b st).2.lastpulseat =
        some ⟨(pulsetoclock last a b st).1.1,
          (pulsetoclock last a b st).1.2.1,
          (pulsetoclock last a b st).1.2.2⟩) ∧
    (∀ (current : Nat × Nat) (st : Storage) (base : Nat × Nat),
      st.lastpulseat = none → st.firstruntime = some base →
      ∃ r : PulseRecord,
        (calcoffset current st).2.lastpulseat = some r ∧
        Bool.xor r.a r.b = true) ∧
    (∀ a b : Bool, Bool.xor a b = true →
      Bool.xor (pulseminute a b).1 (pulseminute a b).2 = true) := by
  refine ⟨?_, ?_, ?_⟩
  · intro last a b st h
    refine ⟨?_, rfl⟩
    have hx : Bool.xor (!a) (!b) = true := by
      cases a <;> cases b <;> revert h <;> decide
    exact hx
  · intro current st base h1 h2
    refine ⟨⟨base, false, true⟩, ?_, rfl⟩
    simp only [calcoffset, h1, h2]
  · intro a b h
    cases a <;> cases b <;> revert h <;> decide

/-- Witness for C8: a concrete pulse from the bootstrap pair, the
bootstrap record itself, and a `pulseminute` flip. -/
theorem phase_pair_complementary_w :
    (Bool.xor (pulsetoclock (3, 15) false true ⟨none, none⟩).1.2.1
        (pulsetoclock (3, 15) false true ⟨none, none⟩).1.2.2 = true ∧
      (pulsetoclock (3, 15) false true ⟨none, none⟩).2.lastpulseat =
        some ⟨(pulsetoclock (3, 15) false true ⟨none, none⟩).1.1,
          (pulsetoclock (3, 15) false true ⟨none, none⟩).1.2.1,
          (pulsetoclock (3, 15) false true ⟨none, none⟩).1.2.2⟩) ∧
    (∃ r : PulseRecord,
      (calcoffset (3, 16) ⟨none, some (3, 15)⟩).2.lastpulseat = some r ∧
      Bool.xor r.a r.b = true) ∧
    Bool.xor (pulseminute true false).1 (pulseminute true false).2 = true :=
  ⟨phase_pair_complementary.1 (3, 15) false true ⟨none, none⟩ (by decide),
   phase_pair_complementary.2.1 (3, 16) ⟨none, some (3, 15)⟩ (3, 15)
     rfl rfl,
   phase_pair_complementary.2.2 true false (by decide)⟩

end Clock
